import Mathlib

/-!
Shallow embedding of `src/graphics/env-lighting.js`.

The module orchestrates GPU work: it creates `Texture` resources, calls the
external convolution primitive `reprojectTexture(source, target, options)`,
and destroys intermediate textures.  We model a run of each operation as a
pure value: the returned texture together with the ordered list of observable
`Event`s it issues (`reproject` calls and `destroy` calls).  The external
`Debug.pushGpuMarker` / `popGpuMarker` tracing calls are purely observational
(spec section 6) and are not part of the event trace.

JavaScript numbers: every quantity flowing through the atlas layout starts as
a non-negative integer and the operations used (`+`, `Math.max`,
`Math.floor(x * 0.5)`, `>>`) keep it one, so rectangles are modelled with
`Nat` and `Math.floor(n * 0.5)` as Nat division `n / 2`.  Texture sizes use
`ℚ` because `generateSkyboxCubemap` computes `source.width / 4` with exact
JavaScript division.  The JavaScript `a || b` default idiom is modelled
explicitly (`0` and absent are falsy).

The `Texture` class itself lives outside this file's source (texture.js);
constructor calls that omit a field receive that external class's defaults.
The claims never depend on those defaulted fields; we fill them with fixed
neutral values (`""`, `false`, `none`) and note each use.
-/

inductive PixelFormat where
  | R8_G8_B8_A8
  | RGBA16F
  | RGBA32F
deriving DecidableEq, Repr

inductive TextureType where
  | DEFAULT
  | RGBM
deriving DecidableEq, Repr

inductive AddressMode where
  | CLAMP_TO_EDGE
deriving DecidableEq, Repr

inductive TexProjection where
  | EQUIRECT
deriving DecidableEq, Repr

inductive Distribution where
  | ggx
  | phong
  | lambert
deriving DecidableEq, Repr

/-- The device capability flags consumed by the format selectors. -/
structure DeviceCaps where
  extTextureHalfFloat : Bool
  textureHalfFloatRenderable : Bool
  extTextureFloat : Bool
  textureFloatRenderable : Bool
deriving DecidableEq, Repr

/-- The texture resource attributes visible to env-lighting.js (spec section 6). -/
structure Texture where
  device : DeviceCaps
  name : String
  cubemap : Bool
  width : ℚ
  height : ℚ
  format : PixelFormat
  type : TextureType
  projection : Option TexProjection
  addressU : AddressMode
  addressV : AddressMode
  fixCubemapSeams : Bool
  mipmaps : Bool
deriving DecidableEq, Repr

/-- `const fixCubemapSeams = true` (line 10). -/
def fixCubemapSeams : Bool := true

/-- `supportsFloat16` (lines 12-14). -/
def supportsFloat16 (device : DeviceCaps) : Bool :=
  device.extTextureHalfFloat && device.textureHalfFloatRenderable

/-- `supportsFloat32` (lines 16-18). -/
def supportsFloat32 (device : DeviceCaps) : Bool :=
  device.extTextureFloat && device.textureFloatRenderable

/-- `lightingSourcePixelFormat` (lines 21-25). -/
def lightingSourcePixelFormat (device : DeviceCaps) : PixelFormat :=
  if supportsFloat16 device then .RGBA16F
  else if supportsFloat32 device then .RGBA32F
  else .R8_G8_B8_A8

/-- `lightingPixelFormat` (lines 28-30). -/
def lightingPixelFormat (_device : DeviceCaps) : PixelFormat :=
  .R8_G8_B8_A8

/-- `createCubemap` (lines 32-45). -/
def createCubemap (device : DeviceCaps) (size : ℚ) (format : PixelFormat)
    (mipmaps : Bool) : Texture :=
  { device := device
    name := "lighting-" ++ toString size
    cubemap := true
    width := size
    height := size
    format := format
    type := if format = .R8_G8_B8_A8 then .RGBM else .DEFAULT
    projection := none
    addressU := .CLAMP_TO_EDGE
    addressV := .CLAMP_TO_EDGE
    fixCubemapSeams := fixCubemapSeams
    mipmaps := mipmaps }

/-- A destination sub-rectangle, the `Vec4` used as `rect`:
`x`, `y` origin, `z` = width, `w` = height. -/
structure Rect where
  x : Nat
  y : Nat
  z : Nat
  w : Nat
deriving DecidableEq, Repr

/-- The options bag of a `reprojectTexture` call (spec section 6). -/
structure ReprojectOptions where
  numSamples : Nat
  distribution : Option Distribution
  specularPower : Option Nat
  rect : Option Rect
  seamPixels : Option Nat
deriving DecidableEq, Repr

/-- One observable GPU-side effect of an operation. -/
inductive Event where
  | reproject (source : Texture) (target : Texture) (options : ReprojectOptions)
  | destroy (t : Texture)
deriving DecidableEq, Repr

/-- The destination rectangle of an event, if it is a reproject call with one. -/
def Event.rectOf : Event → Option Rect
  | .reproject _ _ o => o.rect
  | .destroy _ => none

/-- The specular power of an event, if it is a reproject call with one. -/
def Event.specPowerOf : Event → Option Nat
  | .reproject _ _ o => o.specularPower
  | .destroy _ => none

/-- JavaScript `a || b` on an optional sample count: absent and `0` are falsy. -/
def jsOrNat : Option Nat → Nat → Nat
  | none, d => d
  | some 0, d => d
  | some (Nat.succ n), _ => Nat.succ n

/-- JavaScript `a || b` on an optional numeric size: absent and `0` are falsy. -/
def jsOrQ (a : Option ℚ) (b : ℚ) : ℚ :=
  match a with
  | none => b
  | some q => if q = 0 then b else q

/-- The recognized fields of the `options` bag taken by `generateAtlas` and
`generatePrefilteredAtlas` (spec section 9). -/
structure AtlasOptions where
  target : Option Texture := none
  numSamples : Option Nat := none
  distribution : Option Distribution := none
  legacyAmbient : Bool := false
deriving DecidableEq, Repr

/-- `options?.target`. -/
def optTarget : Option AtlasOptions → Option Texture
  | none => none
  | some o => o.target

/-- `options?.numSamples`. -/
def optNumSamples : Option AtlasOptions → Option Nat
  | none => none
  | some o => o.numSamples

/-- `options?.distribution`. -/
def optDistribution : Option AtlasOptions → Option Distribution
  | none => none
  | some o => o.distribution

/-- Truthiness of `options?.legacyAmbient`. -/
def optLegacy : Option AtlasOptions → Bool
  | none => false
  | some o => o.legacyAmbient

/-- The atlas texture allocated when `options?.target` is absent
(lines 148-157 and 229-238).  `name`, `cubemap` and `fixCubemapSeams` are not
passed to the constructor there; they take the external Texture class
defaults. -/
def atlasTexture (device : DeviceCaps) : Texture :=
  let format := lightingPixelFormat device
  { device := device
    name := ""
    cubemap := false
    width := 512
    height := 512
    format := format
    type := if format = .R8_G8_B8_A8 then .RGBM else .DEFAULT
    projection := some .EQUIRECT
    addressU := .CLAMP_TO_EDGE
    addressV := .CLAMP_TO_EDGE
    fixCubemapSeams := false
    mipmaps := false }

/-- `generateMipmaps` (lines 49-78): the replacement texture and the effect
trace (one identity-copy reproject, then the destruction of the input).
The constructor there omits `projection`; it takes the external default. -/
def generateMipmaps (target : Texture) : Texture × List Event :=
  let result : Texture :=
    { device := target.device
      name := target.name ++ "-mipmaps"
      cubemap := target.cubemap
      width := target.width
      height := target.height
      format := target.format
      type := target.type
      projection := none
      addressU := target.addressU
      addressV := target.addressV
      fixCubemapSeams := target.fixCubemapSeams
      mipmaps := true }
  (result,
    [Event.reproject target result
      { numSamples := 1, distribution := none, specularPower := none,
        rect := none, seamPixels := none },
     Event.destroy target])

/-- `EnvLighting.generateSkyboxCubemap` (lines 91-105). -/
def generateSkyboxCubemap (source : Texture) (size : Option ℚ) :
    Texture × List Event :=
  let device := source.device
  let result := createCubemap device
    (jsOrQ size (if source.cubemap then source.width else source.width / 4))
    .R8_G8_B8_A8 false
  (result,
    [Event.reproject source result
      { numSamples := 1024, distribution := none, specularPower := none,
        rect := none, seamPixels := none }])

/-- `EnvLighting.generateLightingSource` (lines 115-131). -/
def generateLightingSource (source : Texture) : Texture × List Event :=
  let device := source.device
  let result := createCubemap device 128 (lightingSourcePixelFormat device) false
  let copy := Event.reproject source result
    { numSamples := if source.mipmaps then 1 else 1024, distribution := none,
      specularPower := none, rect := none, seamPixels := none }
  let promoted := generateMipmaps result
  (promoted.1, copy :: promoted.2)

/-- The rectangle update at the top of each blurry-reflection iteration
(lines 172-174): `rect.y += rect.w; rect.z = max(1, floor(rect.z * 0.5));
rect.w = max(1, floor(rect.w * 0.5))` — `y` advances by the previous height
before the halving. -/
def nextRect (r : Rect) : Rect :=
  { x := r.x
    y := r.y + r.w
    z := max 1 (r.z / 2)
    w := max 1 (r.w / 2) }

/-- The blurry-reflection loop of `generateAtlas` (lines 171-182): `count`
remaining iterations, loop variable `i`, rectangle from the previous
iteration. -/
def reflectionEvents (source result : Texture) (ns : Nat) (dist : Distribution) :
    Nat → Nat → Rect → List Event
  | _, 0, _ => []
  | i, Nat.succ c, r =>
    let r2 := nextRect r
    Event.reproject source result
      { numSamples := ns
        distribution := some dist
        specularPower := some (max 1 (2048 >>> (i * 2)))
        rect := some r2
        seamPixels := some 1 } :: reflectionEvents source result ns dist (i + 1) c r2

/-- `EnvLighting.generateAtlas` (lines 142-212). -/
def generateAtlas (source : Texture) (options : Option AtlasOptions) :
    Texture × List Event :=
  let device := source.device
  let result := (optTarget options).getD (atlasTexture device)
  let rect0 : Rect := { x := 0, y := 0, z := 512, w := 256 }
  let top := Event.reproject source result
    { numSamples := 1, distribution := none, specularPower := none,
      rect := some rect0, seamPixels := some 1 }
  let refl := reflectionEvents source result
    (jsOrNat (optNumSamples options) 1024)
    ((optDistribution options).getD .ggx) 1 6 rect0
  let ambientRect : Rect := { x := 256, y := 256, z := 64, w := 32 }
  let ambient :=
    if optLegacy options then
      Event.reproject source result
        { numSamples := jsOrNat (optNumSamples options) 4096,
          distribution := some .phong, specularPower := some 2,
          rect := some ambientRect, seamPixels := some 1 }
    else
      Event.reproject source result
        { numSamples := jsOrNat (optNumSamples options) 2048,
          distribution := some .lambert, specularPower := none,
          rect := some ambientRect, seamPixels := some 1 }
  (result, top :: refl ++ [ambient])

/-- The copy loop of `generatePrefilteredAtlas` (lines 245-254): the
reproject call is issued before the rectangle advances. -/
def copyEvents (result : Texture) : List Texture → Rect → List Event
  | [], _ => []
  | s :: rest, r =>
    Event.reproject s result
      { numSamples := 1, distribution := none, specularPower := none,
        rect := some r, seamPixels := some 1 }
      :: copyEvents result rest (nextRect r)

/-- `EnvLighting.generatePrefilteredAtlas` (lines 223-282).  `sources[0]` (and,
in legacy-ambient mode, `sources[5]`) fault when absent, hence `Option`. -/
def generatePrefilteredAtlas (sources : List Texture)
    (options : Option AtlasOptions) : Option (Texture × List Event) :=
  match sources.head? with
  | none => none
  | some s0 =>
    let device := s0.device
    let result := (optTarget options).getD (atlasTexture device)
    let rect0 : Rect := { x := 0, y := 0, z := 512, w := 256 }
    let refl := copyEvents result sources rect0
    let ambientRect : Rect := { x := 256, y := 256, z := 64, w := 32 }
    if optLegacy options then
      match sources[5]? with
      | none => none
      | some s5 =>
        some (result, refl ++
          [Event.reproject s5 result
            { numSamples := 1, distribution := none, specularPower := none,
              rect := some ambientRect, seamPixels := some 1 }])
    else
      some (result, refl ++
        [Event.reproject s0 result
          { numSamples := jsOrNat (optNumSamples options) 2048,
            distribution := some .lambert, specularPower := none,
            rect := some ambientRect, seamPixels := some 1 }])

/-! Concrete sample data used by witnesses and counterexamples. -/

def demoDevice : DeviceCaps := ⟨true, true, true, true⟩

def demoTexture : Texture :=
  { device := demoDevice
    name := "equirect"
    cubemap := false
    width := 1024
    height := 512
    format := .RGBA16F
    type := .DEFAULT
    projection := some .EQUIRECT
    addressU := .CLAMP_TO_EDGE
    addressV := .CLAMP_TO_EDGE
    fixCubemapSeams := false
    mipmaps := false }

/-! Pixel-space semantics of rectangles. -/

/-- The pixel `(px, py)` lies inside rectangle `r`. -/
def Rect.containsPix (r : Rect) (px py : Nat) : Prop :=
  r.x ≤ px ∧ px < r.x + r.z ∧ r.y ≤ py ∧ py < r.y + r.w

instance (r : Rect) (px py : Nat) : Decidable (r.containsPix px py) := by
  unfold Rect.containsPix
  exact inferInstance

/-- Interval-level separation of two rectangles. -/
def Rect.separated (a b : Rect) : Prop :=
  a.x + a.z ≤ b.x ∨ b.x + b.z ≤ a.x ∨ a.y + a.w ≤ b.y ∨ b.y + b.w ≤ a.y

instance (a b : Rect) : Decidable (a.separated b) := by
  unfold Rect.separated
  exact inferInstance

lemma Rect.separated_no_common_pix {a b : Rect} (h : a.separated b) :
    ∀ px py, ¬(a.containsPix px py ∧ b.containsPix px py) := by
  rintro px py ⟨⟨h1, h2, h3, h4⟩, h5, h6, h7, h8⟩
  rcases h with h | h | h | h <;> omega

/-- The eight destination rectangles of one `generateAtlas` build, in issue
order: seven reflection levels followed by the ambient region. -/
def atlasRegions : List Rect :=
  [⟨0, 0, 512, 256⟩, ⟨0, 256, 256, 128⟩, ⟨0, 384, 128, 64⟩, ⟨0, 448, 64, 32⟩,
   ⟨0, 480, 32, 16⟩, ⟨0, 496, 16, 8⟩, ⟨0, 504, 8, 4⟩, ⟨256, 256, 64, 32⟩]

lemma generateAtlas_rects (source : Texture) (options : Option AtlasOptions) :
    (generateAtlas source options).2.map Event.rectOf = atlasRegions.map some := by
  cases h : optLegacy options <;>
    simp [generateAtlas, reflectionEvents, nextRect, Event.rectOf, h, atlasRegions]

lemma generateAtlas_filterMap_rects (source : Texture)
    (options : Option AtlasOptions) :
    (generateAtlas source options).2.filterMap Event.rectOf = atlasRegions := by
  cases h : optLegacy options <;>
    simp [generateAtlas, reflectionEvents, nextRect, Event.rectOf, h, atlasRegions]

/-- C1: for the default 512x256 starting rectangle, `generateAtlas` issues its
reflection convolutions at exactly `(0,0,512,256)`, `(0,256,256,128)`,
`(0,384,128,64)`, `(0,448,64,32)`, `(0,480,32,16)`, `(0,496,16,8)`,
`(0,504,8,4)` in that order, each level 1..6 rectangle arising from the
previous by `y += h_prev`, `w := max 1 (w_prev / 2)`, `h := max 1 (h_prev / 2)`
with `x = 0` throughout, and the ambient pass always uses `(256,256,64,32)`,
whatever the options. -/
theorem c1_generateAtlas_rect_sequence (source : Texture)
    (options : Option AtlasOptions) :
    (generateAtlas source options).2.map Event.rectOf =
      [some ⟨0, 0, 512, 256⟩, some ⟨0, 256, 256, 128⟩, some ⟨0, 384, 128, 64⟩,
       some ⟨0, 448, 64, 32⟩, some ⟨0, 480, 32, 16⟩, some ⟨0, 496, 16, 8⟩,
       some ⟨0, 504, 8, 4⟩, some ⟨256, 256, 64, 32⟩] ∧
    List.Chain' (fun a b : Rect =>
        b.x = 0 ∧ b.y = a.y + a.w ∧ b.z = max 1 (a.z / 2) ∧ b.w = max 1 (a.w / 2))
      (atlasRegions.take 7) := by
  refine ⟨by rw [generateAtlas_rects]; rfl, ?_⟩
  simp only [atlasRegions, List.take_succ_cons, List.take_zero, List.chain'_cons,
    List.chain'_singleton, and_true]
  decide

/-- C2: in the reflection loop of `generateAtlas`, iteration `i` (for `i` from
1 to 6) passes specular power `max 1 (2048 >>> (i * 2))` to the convolution
primitive, and that sequence is exactly `512, 128, 32, 8, 2, 1`. -/
theorem c2_specular_power_sequence (source : Texture)
    (options : Option AtlasOptions) :
    (((generateAtlas source options).2.drop 1).take 6).map Event.specPowerOf =
      (List.range 6).map (fun j => some (max 1 (2048 >>> ((j + 1) * 2)))) ∧
    (List.range 6).map (fun j => max 1 (2048 >>> ((j + 1) * 2))) =
      [512, 128, 32, 8, 2, 1] := by
  exact ⟨rfl, by decide⟩

/-- C3: the intermediate lighting-source format selector returns the 16-bit
float format when half-float is supported and renderable, otherwise the
32-bit float format when full-float is supported and renderable, otherwise
the 8-bit-per-channel format; and the runtime atlas format selector returns
the 8-bit-per-channel format for every device. -/
theorem c3_format_selection (device : DeviceCaps) :
    ((device.extTextureHalfFloat = true ∧ device.textureHalfFloatRenderable = true) →
      lightingSourcePixelFormat device = .RGBA16F) ∧
    (¬(device.extTextureHalfFloat = true ∧ device.textureHalfFloatRenderable = true) →
      (device.extTextureFloat = true ∧ device.textureFloatRenderable = true) →
      lightingSourcePixelFormat device = .RGBA32F) ∧
    (¬(device.extTextureHalfFloat = true ∧ device.textureHalfFloatRenderable = true) →
      ¬(device.extTextureFloat = true ∧ device.textureFloatRenderable = true) →
      lightingSourcePixelFormat device = .R8_G8_B8_A8) ∧
    lightingPixelFormat device = .R8_G8_B8_A8 := by
  obtain ⟨a, b, c, d⟩ := device
  cases a <;> cases b <;> cases c <;> cases d <;> decide

theorem c3_format_selection_witness :
    lightingSourcePixelFormat ⟨false, true, true, true⟩ = .RGBA32F :=
  (c3_format_selection ⟨false, true, true, true⟩).2.1 (by decide) (by decide)

/-- C4: of the eight regions one `generateAtlas` build writes (seven
reflection rectangles plus the ambient rectangle), no two share a pixel, and
every pixel of every region lies within `[0,512) × [0,512)`. -/
theorem c4_regions_disjoint_and_bounded (source : Texture)
    (options : Option AtlasOptions) :
    ((generateAtlas source options).2.filterMap Event.rectOf).Pairwise
      (fun a b => ∀ px py, ¬(a.containsPix px py ∧ b.containsPix px py)) ∧
    ∀ r ∈ (generateAtlas source options).2.filterMap Event.rectOf,
      ∀ px py, r.containsPix px py → px < 512 ∧ py < 512 := by
  rw [generateAtlas_filterMap_rects]
  constructor
  · exact List.Pairwise.imp (fun h => Rect.separated_no_common_pix h)
      (by decide : atlasRegions.Pairwise Rect.separated)
  · intro r hr px py hc
    have hb : r.x + r.z ≤ 512 ∧ r.y + r.w ≤ 512 :=
      (by decide : ∀ s ∈ atlasRegions, s.x + s.z ≤ 512 ∧ s.y + s.w ≤ 512) r hr
    obtain ⟨_, _, _, _⟩ := hc
    omega

theorem c4_regions_disjoint_and_bounded_witness : (10 : Nat) < 512 ∧ (20 : Nat) < 512 :=
  (c4_regions_disjoint_and_bounded demoTexture none).2 ⟨0, 0, 512, 256⟩
    (by decide) 10 20 (by decide)

/-- A caller-supplied atlas target that is not 512x512. -/
def smallTarget : Texture :=
  { device := demoDevice
    name := "small"
    cubemap := false
    width := 256
    height := 256
    format := .R8_G8_B8_A8
    type := .RGBM
    projection := some .EQUIRECT
    addressU := .CLAMP_TO_EDGE
    addressV := .CLAMP_TO_EDGE
    fixCubemapSeams := false
    mipmaps := false }

/-- C5 counterexample: with a caller-supplied 256x256 `options.target`,
`generateAtlas` returns a texture of width 256, not 512 — the claim that the
returned texture is 512x512 for every options value, including a
caller-supplied target, is false. -/
theorem c5_counterexample :
    (generateAtlas demoTexture (some { target := some smallTarget })).1.width ≠ 512 := by
  decide

/-- C5 amended: when no `options.target` is supplied, `generateAtlas` returns
a 512x512 texture; when a target is supplied, it returns that target texture
itself (so the result is 512x512 exactly when the supplied target is). -/
theorem c5_amended_atlas_size (source : Texture) (options : Option AtlasOptions) :
    (optTarget options = none →
      (generateAtlas source options).1.width = 512 ∧
      (generateAtlas source options).1.height = 512) ∧
    ∀ t, optTarget options = some t → (generateAtlas source options).1 = t := by
  constructor
  · intro h
    simp [generateAtlas, h, atlasTexture]
  · intro t h
    simp [generateAtlas, h]

theorem c5_amended_atlas_size_witness :
    (generateAtlas demoTexture none).1.width = 512 ∧
    (generateAtlas demoTexture none).1.height = 512 :=
  (c5_amended_atlas_size demoTexture none).1 rfl

/-- C6: `generateMipmaps` returns a texture agreeing with its input on the
cubemap flag, width, height, format, encoding type, both address modes and
the seam-fixing flag, with `mipmaps = true`; its trace is a single
convolution call with `numSamples = 1` and no distribution (an identity copy
of the input into the new texture), followed by the destruction of the
input. -/
theorem c6_generateMipmaps_promotion (t : Texture) :
    ((generateMipmaps t).1.cubemap = t.cubemap ∧
     (generateMipmaps t).1.width = t.width ∧
     (generateMipmaps t).1.height = t.height ∧
     (generateMipmaps t).1.format = t.format ∧
     (generateMipmaps t).1.type = t.type ∧
     (generateMipmaps t).1.addressU = t.addressU ∧
     (generateMipmaps t).1.addressV = t.addressV ∧
     (generateMipmaps t).1.fixCubemapSeams = t.fixCubemapSeams ∧
     (generateMipmaps t).1.mipmaps = true) ∧
    (generateMipmaps t).2 =
      [Event.reproject t (generateMipmaps t).1
        { numSamples := 1, distribution := none, specularPower := none,
          rect := none, seamPixels := none },
       Event.destroy t] :=
  ⟨⟨rfl, rfl, rfl, rfl, rfl, rfl, rfl, rfl, rfl⟩, rfl⟩

/-- C7: `generateSkyboxCubemap` without an explicit size produces a cubemap
of face size `source.width` when the source is a cubemap and
`source.width / 4` otherwise; with an explicit nonzero size it produces that
size. -/
theorem c7_skybox_size (source : Texture) (s : ℚ) :
    ((generateSkyboxCubemap source none).1.width =
      if source.cubemap then source.width else source.width / 4) ∧
    (s ≠ 0 → (generateSkyboxCubemap source (some s)).1.width = s) := by
  refine ⟨rfl, fun hs => ?_⟩
  simp [generateSkyboxCubemap, createCubemap, jsOrQ, hs]

theorem c7_skybox_size_witness :
    (generateSkyboxCubemap demoTexture (some 64)).1.width = 64 :=
  (c7_skybox_size demoTexture 64).2 (by norm_num)

/-- C8: `generateLightingSource` builds a 128x128-per-face cubemap in the
device's highest-precision intermediate format, convolves the source into it
with `numSamples = 1` when the source carries mipmaps and 1024 otherwise,
then promotes it through `generateMipmaps`, returning a cubemap with
`mipmaps = true`. -/
theorem c8_generateLightingSource (source : Texture) :
    (generateLightingSource source).1 =
      (generateMipmaps
        (createCubemap source.device 128 (lightingSourcePixelFormat source.device) false)).1 ∧
    (generateLightingSource source).1.cubemap = true ∧
    (generateLightingSource source).1.width = 128 ∧
    (generateLightingSource source).1.height = 128 ∧
    (generateLightingSource source).1.format = lightingSourcePixelFormat source.device ∧
    (generateLightingSource source).1.mipmaps = true ∧
    (generateLightingSource source).2 =
      Event.reproject source
        (createCubemap source.device 128 (lightingSourcePixelFormat source.device) false)
        { numSamples := if source.mipmaps then 1 else 1024, distribution := none,
          specularPower := none, rect := none, seamPixels := none }
      :: (generateMipmaps
        (createCubemap source.device 128 (lightingSourcePixelFormat source.device) false)).2 :=
  ⟨rfl, rfl, rfl, rfl, rfl, rfl, rfl⟩

lemma generateAtlas_ambient (source : Texture) (options : Option AtlasOptions) :
    (generateAtlas source options).2.getLast? = some (
      if optLegacy options then
        Event.reproject source ((optTarget options).getD (atlasTexture source.device))
          { numSamples := jsOrNat (optNumSamples options) 4096,
            distribution := some .phong, specularPower := some 2,
            rect := some ⟨256, 256, 64, 32⟩, seamPixels := some 1 }
      else
        Event.reproject source ((optTarget options).getD (atlasTexture source.device))
          { numSamples := jsOrNat (optNumSamples options) 2048,
            distribution := some .lambert, specularPower := none,
            rect := some ⟨256, 256, 64, 32⟩, seamPixels := some 1 }) := rfl

/-- C9: the ambient pass of `generateAtlas` (its last convolution call)
writes the region `(256,256,64,32)`; with `legacyAmbient` it uses
distribution `phong` with specular power 2 and sample count equal to the
caller override (any nonzero value) or 4096 by default; otherwise it uses
distribution `lambert` with no specular power and sample count equal to the
caller override or 2048 by default. -/
theorem c9_ambient_pass (source : Texture) (options : Option AtlasOptions) :
    (optLegacy options = true →
      (optNumSamples options = none →
        (generateAtlas source options).2.getLast? =
          some (Event.reproject source
            ((optTarget options).getD (atlasTexture source.device))
            { numSamples := 4096, distribution := some .phong,
              specularPower := some 2, rect := some ⟨256, 256, 64, 32⟩,
              seamPixels := some 1 })) ∧
      ∀ n : Nat, optNumSamples options = some (n + 1) →
        (generateAtlas source options).2.getLast? =
          some (Event.reproject source
            ((optTarget options).getD (atlasTexture source.device))
            { numSamples := n + 1, distribution := some .phong,
              specularPower := some 2, rect := some ⟨256, 256, 64, 32⟩,
              seamPixels := some 1 })) ∧
    (optLegacy options = false →
      (optNumSamples options = none →
        (generateAtlas source options).2.getLast? =
          some (Event.reproject source
            ((optTarget options).getD (atlasTexture source.device))
            { numSamples := 2048, distribution := some .lambert,
              specularPower := none, rect := some ⟨256, 256, 64, 32⟩,
              seamPixels := some 1 })) ∧
      ∀ n : Nat, optNumSamples options = some (n + 1) →
        (generateAtlas source options).2.getLast? =
          some (Event.reproject source
            ((optTarget options).getD (atlasTexture source.device))
            { numSamples := n + 1, distribution := some .lambert,
              specularPower := none, rect := some ⟨256, 256, 64, 32⟩,
              seamPixels := some 1 })) := by
  refine ⟨fun hL => ⟨fun hN => ?_, fun n hN => ?_⟩,
          fun hL => ⟨fun hN => ?_, fun n hN => ?_⟩⟩ <;>
    simp [generateAtlas_ambient, hL, hN, jsOrNat]

theorem c9_ambient_pass_witness :
    (generateAtlas demoTexture (some { legacyAmbient := true })).2.getLast? =
      some (Event.reproject demoTexture (atlasTexture demoDevice)
        { numSamples := 4096, distribution := some .phong, specularPower := some 2,
          rect := some ⟨256, 256, 64, 32⟩, seamPixels := some 1 }) :=
  ((c9_ambient_pass demoTexture (some { legacyAmbient := true })).1 rfl).1 rfl

/-- C10: the reflection loop of `generatePrefilteredAtlas` on six sources
issues exactly six convolution calls, each with `numSamples = 1`, no
distribution and `seamPixels = 1`, copying `sources[i]` into the i-th
rectangle of the seven-rectangle layout (starting with `sources[0]` into the
base rectangle `(0,0,512,256)`); the seventh rectangle `(0,504,8,4)` is
never written by this loop. -/
theorem c10_prefiltered_reflection_loop (s0 s1 s2 s3 s4 s5 : Texture)
    (options : Option AtlasOptions) :
    (generatePrefilteredAtlas [s0, s1, s2, s3, s4, s5] options).map
        (fun p => p.2.take 6) =
      some
        [Event.reproject s0 ((optTarget options).getD (atlasTexture s0.device))
          { numSamples := 1, distribution := none, specularPower := none,
            rect := some ⟨0, 0, 512, 256⟩, seamPixels := some 1 },
         Event.reproject s1 ((optTarget options).getD (atlasTexture s0.device))
          { numSamples := 1, distribution := none, specularPower := none,
            rect := some ⟨0, 256, 256, 128⟩, seamPixels := some 1 },
         Event.reproject s2 ((optTarget options).getD (atlasTexture s0.device))
          { numSamples := 1, distribution := none, specularPower := none,
            rect := some ⟨0, 384, 128, 64⟩, seamPixels := some 1 },
         Event.reproject s3 ((optTarget options).getD (atlasTexture s0.device))
          { numSamples := 1, distribution := none, specularPower := none,
            rect := some ⟨0, 448, 64, 32⟩, seamPixels := some 1 },
         Event.reproject s4 ((optTarget options).getD (atlasTexture s0.device))
          { numSamples := 1, distribution := none, specularPower := none,
            rect := some ⟨0, 480, 32, 16⟩, seamPixels := some 1 },
         Event.reproject s5 ((optTarget options).getD (atlasTexture s0.device))
          { numSamples := 1, distribution := none, specularPower := none,
            rect := some ⟨0, 496, 16, 8⟩, seamPixels := some 1 }] ∧
    (generatePrefilteredAtlas [s0, s1, s2, s3, s4, s5] options).map
        (fun p => decide ((⟨0, 504, 8, 4⟩ : Rect) ∈
          (p.2.take 6).filterMap Event.rectOf)) = some false := by
  cases h : optLegacy options <;>
    refine ⟨?_, ?_⟩ <;>
    simp [generatePrefilteredAtlas, h, copyEvents, nextRect, Event.rectOf]
